import Mathlib

/-!
Verification of `gaphas/constraint.py` (constraint flavours for the gaphas
canvas solver).

The embedding works over an explicit variable store: every solver variable
is identified by a natural-number index (Python compares variables by
object identity, which the index plays here), and a `State` assigns a
rational value to every index.  Python's IEEE doubles are modelled as exact
rationals; `EPSILON` and all arithmetic carry over literally.  A
`solve_for` method that can raise (an `assert`, or Python's
`UnboundLocalError` in `EquationConstraint.solve_for`) is embedded in
`Except String`; methods that cannot raise return their results directly.
-/

namespace Gaphas

/-- `EPSILON = 1e-6` from `constraint.py`. -/
def EPSILON : ℚ := 1 / 1000000

/-- `equals(a, b)`: `abs(a - b) < EPSILON`. -/
def equals (a b : ℚ) : Bool := |a - b| < EPSILON

/-- The variable store: a value for every variable index. -/
def State : Type := Nat → ℚ

/-- Assignment `var.value = x` for the variable at index `i`. -/
def update (σ : State) (i : Nat) (x : ℚ) : State :=
  fun j => if j = i then x else σ j

/-- Extract the new store from a `solve_for` that did not raise;
a raised exception leaves the store as it was. -/
def okState (e : Except String State) (σ : State) : State :=
  match e with
  | .ok σ' => σ'
  | .error _ => σ

/-! ### Constraint base class: the weakest list -/

/-- `Constraint.create_weakest_list`: the variables whose strength equals
the minimum strength (`min` of a nonempty sequence; the empty case cannot
arise in the source and returns `[]` here). -/
def create_weakest_list (vars : List Nat) (strength : Nat → Nat) : List Nat :=
  match vars with
  | [] => []
  | v :: vs =>
    let m := (vs.map strength).foldl min (strength v)
    vars.filter (fun x => strength x = m)

/-- `Constraint.weakest`: the first element of the `_weakest` list. -/
def weakest (w : List Nat) : Option Nat := w.head?

/-- `Constraint.mark_dirty(v)`: if `v` is the current weakest variable,
remove it and append it at the back. -/
def mark_dirty (w : List Nat) (v : Nat) : List Nat :=
  if w.head? = some v then (w.erase v) ++ [v] else w

/-- One round-robin step: `mark_dirty` applied to the current weakest
variable (what the solver does after driving that variable). -/
def rot_step (w : List Nat) : List Nat :=
  match w.head? with
  | some v => mark_dirty w v
  | none => w

/-! ### EqualsConstraint -/

/-- `EqualsConstraint(a, b)`: variable indices of its two slots. -/
structure EqualsConstraint where
  a : Nat
  b : Nat

/-- `EqualsConstraint.solve_for(var)`: assert `var` is `a` or `b`; when the
two values differ by at least `EPSILON`, assign the *other* side's value to
`var` itself (`self.a.value = self.b.value` when `var is self.a`). -/
def EqualsConstraint.solve_for (c : EqualsConstraint) (var : Nat) (σ : State) :
    Except String State :=
  if var = c.a ∨ var = c.b then
    .ok (if ¬ equals (σ c.a) (σ c.b) then
          if var = c.a then update σ c.a (σ c.b)
          else update σ c.b (σ c.a)
        else σ)
  else .error "AssertionError"

/-! ### CenterConstraint -/

/-- `CenterConstraint(a, b, center)`. -/
structure CenterConstraint where
  a : Nat
  b : Nat
  center : Nat

/-- `CenterConstraint.solve_for(var)`: assert `var` is owned, then write
`(a + b) / 2` to `center` unless already within tolerance. -/
def CenterConstraint.solve_for (c : CenterConstraint) (var : Nat) (σ : State) :
    Except String State :=
  if var = c.a ∨ var = c.b ∨ var = c.center then
    let v := (σ c.a + σ c.b) / 2
    .ok (if ¬ equals (σ c.center) v then update σ c.center v else σ)
  else .error "AssertionError"

/-! ### LessThanConstraint -/

/-- `LessThanConstraint(smaller, bigger, delta)`. -/
structure LessThanConstraint where
  smaller : Nat
  bigger : Nat
  delta : ℚ

/-- `LessThanConstraint.solve_for(var)`: no assert in the source; when
`smaller > bigger - delta`, push the side opposite to `var`; with any other
`var` the body falls through and nothing happens. -/
def LessThanConstraint.solve_for (c : LessThanConstraint) (var : Nat) (σ : State) :
    Except String State :=
  .ok (if σ c.smaller > σ c.bigger - c.delta then
        if var = c.smaller then update σ c.bigger (σ c.smaller + c.delta)
        else if var = c.bigger then update σ c.smaller (σ c.bigger - c.delta)
        else σ
      else σ)

/-! ### BalanceConstraint -/

/-- `BalanceConstraint(band=(b1, b2), v, balance)`: the three variable
indices and the `balance` attribute (a plain number on the constraint). -/
structure BalanceConstraint where
  b1 : Nat
  b2 : Nat
  v : Nat
  balance : ℚ

/-- `BalanceConstraint.update_balance()`: recompute `balance` from the
current values, guarding a zero-width band with `balance = 0`. -/
def BalanceConstraint.update_balance (c : BalanceConstraint) (σ : State) :
    BalanceConstraint :=
  let w := σ c.b2 - σ c.b1
  if w ≠ 0 then { c with balance := (σ c.v - σ c.b1) / w }
  else { c with balance := 0 }

/-- `BalanceConstraint.solve_for(var)`: compute
`value = b1 + (b2 - b1) * balance` and assign it to the *passed* variable
`var` unless within tolerance.  The method never raises and never writes
`self.balance`, so it returns the untouched constraint with the new store. -/
def BalanceConstraint.solve_for (c : BalanceConstraint) (var : Nat) (σ : State) :
    BalanceConstraint × State :=
  let w := σ c.b2 - σ c.b1
  let value := σ c.b1 + w * c.balance
  (c, if ¬ equals (σ var) value then update σ var value else σ)

/-! ### LineConstraint -/

/-- `LineConstraint(line=((sx, sy), (ex, ey)), point=(px, py))`: six
variable indices plus the captured `ratio_x` / `ratio_y` attributes. -/
structure LineConstraint where
  sx : Nat
  sy : Nat
  ex : Nat
  ey : Nat
  px : Nat
  py : Nat
  ratio_x : ℚ
  ratio_y : ℚ

/-- `LineConstraint.update_ratio()`: capture `(point - start) / (end - start)`
per axis; a `ZeroDivisionError` (zero-length axis) is caught and the ratio
defaults to `0.0`. -/
def LineConstraint.update_ratio (c : LineConstraint) (σ : State) : LineConstraint :=
  { c with
    ratio_x := if σ c.ex - σ c.sx = 0 then 0 else (σ c.px - σ c.sx) / (σ c.ex - σ c.sx)
    ratio_y := if σ c.ey - σ c.sy = 0 then 0 else (σ c.py - σ c.sy) / (σ c.ey - σ c.sy) }

/-- `LineConstraint._solve()`: recompute the point from the current ratios,
writing each coordinate only when out of tolerance (the `py` check reads the
store after the `px` write, as the source does). -/
def LineConstraint.solvePoint (c : LineConstraint) (σ : State) : State :=
  let x := σ c.sx + (σ c.ex - σ c.sx) * c.ratio_x
  let y := σ c.sy + (σ c.ey - σ c.sy) * c.ratio_y
  let σ1 := if ¬ equals (σ c.px) x then update σ c.px x else σ
  if ¬ equals (σ1 c.py) y then update σ1 c.py y else σ1

/-- `LineConstraint.solve_for(var=None)`: ignores `var`, calls `_solve`,
never raises, never touches the ratios. -/
def LineConstraint.solve_for (c : LineConstraint) (_var : Option Nat) (σ : State) :
    LineConstraint × State :=
  (c, c.solvePoint σ)

/-! ### EquationConstraint -/

/-- `ITERLIMIT = 1000` from `constraint.py`. -/
def ITERLIMIT : Nat := 1000

/-- The `while 1` loop of `EquationConstraint._solve_for` (the secant
iteration).  Arguments mirror the Python locals: the fuel is an embedding
artifact (`none` marks exhaustion and is proved unreachable from the
method's entry, see `secantLoop_total`); `n`, `close_runs`, `x0`, `x1`,
`fx0` are the loop state.  The result pairs the returned `x1` with the
diagnostics the loop printed. -/
def secantLoop (f : ℚ → ℚ) : Nat → Nat → Nat → ℚ → ℚ → ℚ → Option (ℚ × List String)
  | 0, _, _, _, _, _ => none
  | fuel + 1, n, close_runs, x0, x1, fx0 =>
    let fx1 := f x1
    if fx1 = 0 ∨ x1 = x0 then some (x1, [])
    else
      let close_flag := |fx1 - fx0| < EPSILON
      if close_flag ∧ close_runs = 0 then some (x1, [])
      else
        let close_runs' := if close_flag then close_runs - 1 else close_runs
        if ITERLIMIT < n then
          some (x1, ["Failed to converge; exceeded iteration limit"])
        else
          let slope := (fx1 - fx0) / (x1 - x0)
          if slope = 0 then
            if close_flag then some (x1, [])
            else some (x1, ["Zero slope and not close enough to solution"])
          else
            let x2 := x0 - fx0 / slope
            secantLoop f fuel (n + 1) close_runs' x1 x2 fx1

/-- `EquationConstraint._solve_for(arg, args)`: seed `x0` from the current
value of the target argument (`1` when that value is falsy, i.e. zero),
seed `x1 = x0 * 1.1` (`1` when `x0 == 0`), evaluate `f` with the target
argument replaced, and run the secant loop with `close_runs = 10`. -/
def solve_for_arg (f : List ℚ → ℚ) (vals : List ℚ) (i : Nat) :
    Option (ℚ × List String) :=
  let cur := vals.getD i 0
  let x0 := if cur = 0 then 1 else cur
  let x1 := if x0 = 0 then 1 else x0 * (11 / 10)
  let g : ℚ → ℚ := fun x => f (vals.set i x)
  secantLoop g (ITERLIMIT + 2) 0 10 x0 x1 (g x0)

/-- `EquationConstraint(f, **args)`: the function over its argument list and
the variable index bound to each argument position. -/
structure EquationConstraint where
  f : List ℚ → ℚ
  vars : List Nat

/-- `EquationConstraint.solve_for(var)`: look up which argument `var` is
bound to (when `var` is none of them, the local `arg` is never assigned and
Python raises `UnboundLocalError`), run `_solve_for`, and write the result
back only when it differs *exactly* (`!=`) from the current value. -/
def EquationConstraint.solve_for (c : EquationConstraint) (var : Nat) (σ : State) :
    Except String (State × List String) :=
  let vals := c.vars.map σ
  match c.vars.findIdx? (fun j => j == var) with
  | none => .error "UnboundLocalError"
  | some i =>
    match solve_for_arg c.f vals i with
    | none => .error "unreachable: iteration fuel exhausted"
    | some (v, msgs) =>
      .ok ((if σ var ≠ v then update σ var v else σ), msgs)

/-! ### Unfolding and branch lemmas for the secant loop -/

/-- One unfolding of `secantLoop` at positive fuel. -/
theorem secantLoop_succ (f : ℚ → ℚ) (fuel n close_runs : Nat) (x0 x1 fx0 : ℚ) :
    secantLoop f (fuel + 1) n close_runs x0 x1 fx0 =
      (let fx1 := f x1
      if fx1 = 0 ∨ x1 = x0 then some (x1, [])
      else
        let close_flag := |fx1 - fx0| < EPSILON
        if close_flag ∧ close_runs = 0 then some (x1, [])
        else
          let close_runs' := if close_flag then close_runs - 1 else close_runs
          if ITERLIMIT < n then
            some (x1, ["Failed to converge; exceeded iteration limit"])
          else
            let slope := (fx1 - fx0) / (x1 - x0)
            if slope = 0 then
              if close_flag then some (x1, [])
              else some (x1, ["Zero slope and not close enough to solution"])
            else
              let x2 := x0 - fx0 / slope
              secantLoop f fuel (n + 1) close_runs' x1 x2 fx1) := rfl

/-- `fx1 == 0 or x1 == x0` nails the root: the loop returns `x1` at once. -/
theorem secantLoop_exact (f : ℚ → ℚ) (fuel n close_runs : Nat) (x0 x1 fx0 : ℚ)
    (h : f x1 = 0 ∨ x1 = x0) :
    secantLoop f (fuel + 1) n close_runs x0 x1 fx0 = some (x1, []) := by
  rw [secantLoop_succ]
  simp only [if_pos h]

/-- Close (successive function values within `EPSILON`) with the refinement
budget exhausted: the loop accepts `x1` with no diagnostic. -/
theorem secantLoop_close_exhausted (f : ℚ → ℚ) (fuel n close_runs : Nat)
    (x0 x1 fx0 : ℚ) (h0 : ¬ (f x1 = 0 ∨ x1 = x0))
    (hc : |f x1 - fx0| < EPSILON) (hr : close_runs = 0) :
    secantLoop f (fuel + 1) n close_runs x0 x1 fx0 = some (x1, []) := by
  rw [secantLoop_succ]
  simp only [if_neg h0, if_pos (And.intro hc hr)]

/-- Zero secant slope while close: the loop stops without any
non-convergence diagnostic, whatever the magnitude of `f x1`. -/
theorem secantLoop_zero_slope_close (f : ℚ → ℚ) (fuel n close_runs : Nat)
    (x0 x1 fx0 : ℚ) (h0 : ¬ (f x1 = 0 ∨ x1 = x0))
    (hc : |f x1 - fx0| < EPSILON) (hr : close_runs ≠ 0) (hn : ¬ ITERLIMIT < n)
    (hs : (f x1 - fx0) / (x1 - x0) = 0) :
    secantLoop f (fuel + 1) n close_runs x0 x1 fx0 = some (x1, []) := by
  rw [secantLoop_succ]
  have hcr : ¬ (|f x1 - fx0| < EPSILON ∧ close_runs = 0) := fun h => hr h.2
  simp only [if_neg h0, if_neg hcr, if_neg hn, if_pos hs, if_pos hc]

/-- Zero secant slope while not close: non-convergence is reported. -/
theorem secantLoop_zero_slope_far (f : ℚ → ℚ) (fuel n close_runs : Nat)
    (x0 x1 fx0 : ℚ) (h0 : ¬ (f x1 = 0 ∨ x1 = x0))
    (hc : ¬ |f x1 - fx0| < EPSILON) (hn : ¬ ITERLIMIT < n)
    (hs : (f x1 - fx0) / (x1 - x0) = 0) :
    secantLoop f (fuel + 1) n close_runs x0 x1 fx0 =
      some (x1, ["Zero slope and not close enough to solution"]) := by
  rw [secantLoop_succ]
  have hcr : ¬ (|f x1 - fx0| < EPSILON ∧ close_runs = 0) := fun h => hc h.1
  simp only [if_neg h0, if_neg hcr, if_neg hn, if_pos hs, if_neg hc]

/-- Past the iteration cap the loop stops, reporting but not raising. -/
theorem secantLoop_iterlimit (f : ℚ → ℚ) (fuel n close_runs : Nat)
    (x0 x1 fx0 : ℚ) (h0 : ¬ (f x1 = 0 ∨ x1 = x0))
    (hcr : ¬ (|f x1 - fx0| < EPSILON ∧ close_runs = 0)) (hn : ITERLIMIT < n) :
    secantLoop f (fuel + 1) n close_runs x0 x1 fx0 =
      some (x1, ["Failed to converge; exceeded iteration limit"]) := by
  rw [secantLoop_succ]
  simp only [if_neg h0, if_neg hcr, if_pos hn]

/-- The non-breaking path: shift the secant window and continue. -/
theorem secantLoop_step (f : ℚ → ℚ) (fuel n close_runs : Nat) (x0 x1 fx0 : ℚ)
    (h0 : ¬ (f x1 = 0 ∨ x1 = x0))
    (hcr : ¬ (|f x1 - fx0| < EPSILON ∧ close_runs = 0)) (hn : ¬ ITERLIMIT < n)
    (hs : (f x1 - fx0) / (x1 - x0) ≠ 0) :
    secantLoop f (fuel + 1) n close_runs x0 x1 fx0 =
      secantLoop f fuel (n + 1)
        (if |f x1 - fx0| < EPSILON then close_runs - 1 else close_runs)
        x1 (x0 - fx0 / ((f x1 - fx0) / (x1 - x0))) (f x1) := by
  rw [secantLoop_succ]
  simp only [if_neg h0, if_neg hcr, if_neg hn, if_neg hs]

/-- Fuel `ITERLIMIT + 2 - n` always suffices: every branch of the loop body
either returns, or recurses with `n + 1` after the `n > ITERLIMIT` test
failed, so the fuel-exhaustion marker `none` is unreachable. -/
theorem secantLoop_total (f : ℚ → ℚ) : ∀ (fuel n close_runs : Nat)
    (x0 x1 fx0 : ℚ), ITERLIMIT + 2 ≤ n + fuel → n ≤ ITERLIMIT + 1 →
    ∃ r, secantLoop f fuel n close_runs x0 x1 fx0 = some r := by
  intro fuel
  induction fuel with
  | zero => intro n close_runs x0 x1 fx0 h1 h2; omega
  | succ fuel ih =>
    intro n close_runs x0 x1 fx0 h1 h2
    by_cases h0 : f x1 = 0 ∨ x1 = x0
    · exact ⟨_, secantLoop_exact f fuel n close_runs x0 x1 fx0 h0⟩
    by_cases hcr : |f x1 - fx0| < EPSILON ∧ close_runs = 0
    · exact ⟨_, secantLoop_close_exhausted f fuel n close_runs x0 x1 fx0 h0
        hcr.1 hcr.2⟩
    by_cases hn : ITERLIMIT < n
    · exact ⟨_, secantLoop_iterlimit f fuel n close_runs x0 x1 fx0 h0 hcr hn⟩
    by_cases hs : (f x1 - fx0) / (x1 - x0) = 0
    · by_cases hc : |f x1 - fx0| < EPSILON
      · exact ⟨_, secantLoop_zero_slope_close f fuel n close_runs x0 x1 fx0 h0
          hc (fun h => hcr ⟨hc, h⟩) hn hs⟩
      · exact ⟨_, secantLoop_zero_slope_far f fuel n close_runs x0 x1 fx0 h0
          hc hn hs⟩
    · rw [secantLoop_step f fuel n close_runs x0 x1 fx0 h0 hcr hn hs]
      exact ih (n + 1) _ x1 _ (f x1) (by omega) (by omega)

/-- C5: for every function and every seed, `EquationConstraint._solve_for`
terminates: fuel `ITERLIMIT + 2` (the cap plus a small constant) is never
exhausted, so the loop returns a value; and once `n` passes `ITERLIMIT` the
loop stops with the best estimate `x1` and a printed report, not an
exception. -/
theorem c5_solve_terminates :
    (∀ (f : ℚ → ℚ) (close_runs : Nat) (x0 x1 fx0 : ℚ),
      ∃ r, secantLoop f (ITERLIMIT + 2) 0 close_runs x0 x1 fx0 = some r) ∧
    (∀ (f : List ℚ → ℚ) (vals : List ℚ) (i : Nat),
      ∃ r, solve_for_arg f vals i = some r) ∧
    (∀ (f : ℚ → ℚ) (fuel n close_runs : Nat) (x0 x1 fx0 : ℚ),
      ¬ (f x1 = 0 ∨ x1 = x0) →
      ¬ (|f x1 - fx0| < EPSILON ∧ close_runs = 0) → ITERLIMIT < n →
      secantLoop f (fuel + 1) n close_runs x0 x1 fx0 =
        some (x1, ["Failed to converge; exceeded iteration limit"])) := by
  refine ⟨fun f close_runs x0 x1 fx0 => ?_, fun f vals i => ?_,
    fun f fuel n close_runs x0 x1 fx0 h0 hcr hn =>
      secantLoop_iterlimit f fuel n close_runs x0 x1 fx0 h0 hcr hn⟩
  · exact secantLoop_total f (ITERLIMIT + 2) 0 close_runs x0 x1 fx0
      (by omega) (by omega)
  · simp only [solve_for_arg]
    exact secantLoop_total _ (ITERLIMIT + 2) 0 10 _ _ _ (by omega) (by omega)

/-- C5 witness: the iteration-cap conjunct at a concrete state
(`n = 1001`, function value `1`, previous value `10`). -/
theorem c5_witness :
    secantLoop (fun _ => (1 : ℚ)) 3 1001 5 1 2 10 =
      some (2, ["Failed to converge; exceeded iteration limit"]) := by
  refine c5_solve_terminates.2.2 (fun _ => (1 : ℚ)) 2 1001 5 1 2 10 ?_ ?_ ?_
  · norm_num
  · norm_num [EPSILON]
  · norm_num [ITERLIMIT]

/-- C4 (amended): the "close enough" condition of the secant iteration
compares the two most recent function values — it is `|f(x1) - f(x0)| <
EPSILON`, not `|f(x1)| < EPSILON`.  When it holds with the refinement
budget exhausted (`close_runs = 0`, after at most the budgeted 10 extra
passes) the loop accepts `x1` at once, and a zero-slope stop under this
condition is silent, both regardless of the magnitude of `f(x1)`; when it
fails, a zero slope is reported as non-convergence. -/
theorem c4_close_condition_amended :
    (∀ (f : ℚ → ℚ) (fuel n : Nat) (x0 x1 fx0 : ℚ),
      ¬ (f x1 = 0 ∨ x1 = x0) → |f x1 - fx0| < EPSILON →
      secantLoop f (fuel + 1) n 0 x0 x1 fx0 = some (x1, [])) ∧
    (∀ (f : ℚ → ℚ) (fuel n close_runs : Nat) (x0 x1 fx0 : ℚ),
      ¬ (f x1 = 0 ∨ x1 = x0) → |f x1 - fx0| < EPSILON → close_runs ≠ 0 →
      ¬ ITERLIMIT < n → (f x1 - fx0) / (x1 - x0) = 0 →
      secantLoop f (fuel + 1) n close_runs x0 x1 fx0 = some (x1, [])) ∧
    (∀ (f : ℚ → ℚ) (fuel n close_runs : Nat) (x0 x1 fx0 : ℚ),
      ¬ (f x1 = 0 ∨ x1 = x0) → ¬ |f x1 - fx0| < EPSILON →
      ¬ ITERLIMIT < n → (f x1 - fx0) / (x1 - x0) = 0 →
      secantLoop f (fuel + 1) n close_runs x0 x1 fx0 =
        some (x1, ["Zero slope and not close enough to solution"])) :=
  ⟨fun f fuel n x0 x1 fx0 h0 hc =>
      secantLoop_close_exhausted f fuel n 0 x0 x1 fx0 h0 hc rfl,
    fun f fuel n close_runs x0 x1 fx0 h0 hc hr hn hs =>
      secantLoop_zero_slope_close f fuel n close_runs x0 x1 fx0 h0 hc hr hn hs,
    fun f fuel n close_runs x0 x1 fx0 h0 hc hn hs =>
      secantLoop_zero_slope_far f fuel n close_runs x0 x1 fx0 h0 hc hn hs⟩

/-- C4 witness: the exhausted-budget conjunct at a concrete state: the
function value `5` is nowhere near zero, yet successive values are equal,
so the loop accepts. -/
theorem c4_witness :
    secantLoop (fun _ => (5 : ℚ)) 1 7 0 1 2 5 = some (2, []) := by
  refine c4_close_condition_amended.1 (fun _ => (5 : ℚ)) 0 7 1 2 5 ?_ ?_
  · norm_num
  · norm_num [EPSILON]

/-- C4 counterexample: from the entry point of `_solve_for` with the
constant function `5` (current argument value `1`), the very first
iteration sets the close flag (`|5 - 5| < EPSILON`), meets a zero slope,
and stops silently returning `x1 = 1.1` — although `|f(x1)| = 5` is nowhere
within `EPSILON` of zero, refuting "close enough exactly when `|f(x1)| <
EPSILON`". -/
theorem c4_counterexample :
    solve_for_arg (fun _ => (5 : ℚ)) [1] 0 = some (11 / 10, []) ∧
    EPSILON ≤ |(5 : ℚ)| := by
  constructor
  · simp only [solve_for_arg]
    norm_num
    rw [secantLoop_zero_slope_close _ (ITERLIMIT + 1) 0 10 1 (11 / 10) 5] <;>
      norm_num [EPSILON, ITERLIMIT]
  · norm_num [EPSILON]

/-! ### Helper lemmas about the store and the tolerance -/

theorem EPSILON_pos : (0 : ℚ) < EPSILON := by norm_num [EPSILON]

theorem equals_eq_true_iff (a b : ℚ) : equals a b = true ↔ |a - b| < EPSILON := by
  simp [equals]

theorem update_same (σ : State) (i : Nat) (x : ℚ) : update σ i x i = x := by
  simp [update]

theorem update_other (σ : State) (i : Nat) (x : ℚ) {j : Nat} (h : j ≠ i) :
    update σ i x j = σ j := by
  simp [update, h]

theorem okState_ok (σ' σ : State) : okState (.ok σ') σ = σ' := rfl

theorem okState_error (e : String) (σ : State) : okState (.error e) σ = σ := rfl

/-- A single guarded write (`if not equals(old, v): target = v`) moves the
changed slot by at least `EPSILON`. -/
theorem write_moves_beyond_tolerance (σ : State) (t : Nat) (v : ℚ)
    (hg : ¬ |σ t - v| < EPSILON) :
    ∀ j, update σ t v j ≠ σ j → EPSILON ≤ |update σ t v j - σ j| := by
  intro j hj
  by_cases hjt : j = t
  · subst hjt
    rw [update_same] at hj ⊢
    rw [abs_sub_comm]
    exact not_lt.mp hg
  · exact absurd (update_other σ t v hjt) hj

/-! ### Example stores and constraints used at concrete inputs -/

/-- A store with value `1` at index `0` and `2` everywhere else. -/
def σ12 : State := fun i => if i = 0 then 1 else 2

/-- A store for `LessThanConstraint` examples: `smaller = 3`, `bigger = 2`. -/
def σ32 : State := fun i => if i = 0 then 3 else if i = 1 then 2 else 0

/-- A store for `LessThanConstraint` within-tolerance examples:
`smaller = 1 + 1/2000000`, `bigger = 1`. -/
def σlt : State := fun i => if i = 0 then 1 + 1 / 2000000 else 1

/-- A store for `BalanceConstraint` examples: band `(0, 10)`, `v = 5`. -/
def σbal : State :=
  fun i => if i = 0 then 0 else if i = 1 then 10 else if i = 2 then 5 else 0

/-- A store for the `EquationConstraint` example `f(a, b) = a - b` with
`a = 1` and `b = 1 + 1/2000000`. -/
def σeq : State := fun i => if i = 0 then 1 else 1 + 1 / 2000000

/-- `EquationConstraint` for `f(a, b) = a - b` over indices `0`, `1`. -/
def eqnSub : EquationConstraint := ⟨fun l => l.getD 0 0 - l.getD 1 0, [0, 1]⟩

/-! ### C1 -/

/-- C1 (amended): for `EqualsConstraint` with the two sides at least
`EPSILON` apart, `solve_for(v)` overwrites `v` itself with the *other*
side's value and leaves the other side unchanged (the claim had it the
other way round). -/
theorem c1_equals_overwrites_var_amended :
    ∀ (c : EqualsConstraint) (σ : State) (var : Nat),
      EPSILON ≤ |σ c.a - σ c.b| → (var = c.a ∨ var = c.b) →
      okState (c.solve_for var σ) σ var = σ (if var = c.a then c.b else c.a) ∧
      okState (c.solve_for var σ) σ (if var = c.a then c.b else c.a) =
        σ (if var = c.a then c.b else c.a) := by
  intro c σ var hfar hvar
  have hab : c.a ≠ c.b := by
    intro h
    rw [h, sub_self, abs_zero] at hfar
    exact absurd (lt_of_lt_of_le EPSILON_pos hfar) (lt_irrefl 0)
  have hne : ¬ (equals (σ c.a) (σ c.b) = true) := by
    rw [equals_eq_true_iff]
    exact not_lt.mpr hfar
  by_cases hva : var = c.a
  · subst hva
    simp only [EqualsConstraint.solve_for, eq_self_iff_true, true_or, if_true,
      if_pos hne, okState_ok]
    exact ⟨update_same σ c.a (σ c.b), update_other σ c.a (σ c.b) (Ne.symm hab)⟩
  · have hvb : var = c.b := hvar.resolve_left hva
    subst hvb
    simp only [EqualsConstraint.solve_for, eq_self_iff_true, or_true, if_true,
      if_pos hne, if_neg hva, okState_ok]
    exact ⟨update_same σ c.b (σ c.a), update_other σ c.b (σ c.a) hab⟩


/-- C1 witness: sides `1` and `2` at indices `0`, `1`; solving for the `b`
side overwrites it with `a`'s value and leaves `a` alone. -/
theorem c1_witness :
    okState (EqualsConstraint.solve_for ⟨0, 1⟩ 1 σ12) σ12 1 = σ12 0 ∧
    okState (EqualsConstraint.solve_for ⟨0, 1⟩ 1 σ12) σ12 0 = σ12 0 :=
  c1_equals_overwrites_var_amended ⟨0, 1⟩ σ12 1
    (by norm_num [σ12, EPSILON]) (Or.inr rfl)

/-- C1 counterexample: with `a = 1`, `b = 2` (difference well above
`EPSILON`), `solve_for(a)` sets `a` itself to `2`: the side passed as `v`
is exactly the one overwritten, so it is not "left unchanged". -/
theorem c1_counterexample :
    EPSILON ≤ |σ12 0 - σ12 1| ∧
    okState (EqualsConstraint.solve_for ⟨0, 1⟩ 0 σ12) σ12 0 = 2 ∧
    σ12 0 = 1 ∧
    okState (EqualsConstraint.solve_for ⟨0, 1⟩ 0 σ12) σ12 1 = 2 := by
  refine ⟨by norm_num [σ12, EPSILON], ?_, by norm_num [σ12], ?_⟩ <;>
    norm_num [EqualsConstraint.solve_for, okState, equals, update, σ12, EPSILON]

/-! ### C2 -/

/-- C2 (amended): Equals, Center, Balance and Line (the latter with distinct
point coordinates) guard every write with the `EPSILON` comparison, so any
slot they change moves by at least `EPSILON`.  LessThan and Equation do
not: LessThan writes whenever `smaller > bigger - delta` with no tolerance
check, and Equation compares with exact `!=` (see the counterexample). -/
theorem c2_tolerance_guard_amended :
    (∀ (c : EqualsConstraint) (var : Nat) (σ : State) (j : Nat),
      okState (c.solve_for var σ) σ j ≠ σ j →
      EPSILON ≤ |okState (c.solve_for var σ) σ j - σ j|) ∧
    (∀ (c : CenterConstraint) (var : Nat) (σ : State) (j : Nat),
      okState (c.solve_for var σ) σ j ≠ σ j →
      EPSILON ≤ |okState (c.solve_for var σ) σ j - σ j|) ∧
    (∀ (c : BalanceConstraint) (var : Nat) (σ : State) (j : Nat),
      (c.solve_for var σ).2 j ≠ σ j →
      EPSILON ≤ |(c.solve_for var σ).2 j - σ j|) ∧
    (∀ (c : LineConstraint) (σ : State) (j : Nat), c.px ≠ c.py →
      (c.solve_for none σ).2 j ≠ σ j →
      EPSILON ≤ |(c.solve_for none σ).2 j - σ j|) := by
  refine ⟨fun c var σ j => ?_, fun c var σ j => ?_, fun c var σ j => ?_,
    fun c σ j hpxy => ?_⟩
  · by_cases hvar : var = c.a ∨ var = c.b
    · rw [EqualsConstraint.solve_for, if_pos hvar]
      by_cases hg : equals (σ c.a) (σ c.b) = true
      · rw [if_neg (not_not_intro hg), okState_ok]
        exact fun h => absurd rfl h
      · have hguard : ¬ |σ c.a - σ c.b| < EPSILON :=
          fun h => hg ((equals_eq_true_iff _ _).mpr h)
        rw [if_pos hg]
        by_cases hva : var = c.a
        · rw [if_pos hva, okState_ok]
          exact write_moves_beyond_tolerance σ c.a (σ c.b) hguard j
        · rw [if_neg hva, okState_ok]
          refine write_moves_beyond_tolerance σ c.b (σ c.a) ?_ j
          rw [abs_sub_comm]
          exact hguard
    · rw [EqualsConstraint.solve_for, if_neg hvar, okState_error]
      exact fun h => absurd rfl h
  · by_cases hvar : var = c.a ∨ var = c.b ∨ var = c.center
    · simp only [CenterConstraint.solve_for, if_pos hvar]
      by_cases hg : equals (σ c.center) ((σ c.a + σ c.b) / 2) = true
      · rw [if_neg (not_not_intro hg), okState_ok]
        exact fun h => absurd rfl h
      · rw [if_pos hg, okState_ok]
        exact write_moves_beyond_tolerance σ c.center ((σ c.a + σ c.b) / 2)
          (fun h => hg ((equals_eq_true_iff _ _).mpr h)) j
    · simp only [CenterConstraint.solve_for, if_neg hvar, okState_error]
      exact fun h => absurd rfl h
  · simp only [BalanceConstraint.solve_for]
    by_cases hg : equals (σ var) (σ c.b1 + (σ c.b2 - σ c.b1) * c.balance) = true
    · rw [if_neg (not_not_intro hg)]
      exact fun h => absurd rfl h
    · rw [if_pos hg]
      exact write_moves_beyond_tolerance σ var _
        (fun h => hg ((equals_eq_true_iff _ _).mpr h)) j
  · simp only [LineConstraint.solve_for, LineConstraint.solvePoint]
    by_cases h1 : equals (σ c.px) (σ c.sx + (σ c.ex - σ c.sx) * c.ratio_x) = true
    · rw [if_neg (not_not_intro h1)]
      by_cases h2 : equals (σ c.py) (σ c.sy + (σ c.ey - σ c.sy) * c.ratio_y) = true
      · rw [if_neg (not_not_intro h2)]
        exact fun h => absurd rfl h
      · rw [if_pos h2]
        exact write_moves_beyond_tolerance σ c.py _
          (fun h => h2 ((equals_eq_true_iff _ _).mpr h)) j
    · rw [if_pos h1]
      have hpy : update σ c.px (σ c.sx + (σ c.ex - σ c.sx) * c.ratio_x) c.py =
          σ c.py := update_other σ c.px _ (Ne.symm hpxy)
      rw [hpy]
      have hg1 : ¬ |σ c.px - (σ c.sx + (σ c.ex - σ c.sx) * c.ratio_x)| < EPSILON :=
        fun h => h1 ((equals_eq_true_iff _ _).mpr h)
      by_cases h2 : equals (σ c.py) (σ c.sy + (σ c.ey - σ c.sy) * c.ratio_y) = true
      · rw [if_neg (not_not_intro h2)]
        exact write_moves_beyond_tolerance σ c.px _ hg1 j
      · rw [if_pos h2]
        have hg2 : ¬ |σ c.py - (σ c.sy + (σ c.ey - σ c.sy) * c.ratio_y)| < EPSILON :=
          fun h => h2 ((equals_eq_true_iff _ _).mpr h)
        intro hj
        by_cases hjpy : j = c.py
        · subst hjpy
          rw [update_same, abs_sub_comm]
          exact not_lt.mp hg2
        · rw [update_other _ c.py _ hjpy] at hj ⊢
          exact write_moves_beyond_tolerance σ c.px _ hg1 j hj

/-- C2 witness: the Equals conjunct at sides `1`, `2`: the write moved the
slot by `1 ≥ EPSILON`. -/
theorem c2_witness :
    EPSILON ≤ |okState (EqualsConstraint.solve_for ⟨0, 1⟩ 0 σ12) σ12 0 - σ12 0| :=
  c2_tolerance_guard_amended.1 ⟨0, 1⟩ 0 σ12 0
    (by norm_num [EqualsConstraint.solve_for, okState, equals, update, σ12, EPSILON])

/-- The concrete `EquationConstraint` run used by the C2 counterexample:
solving `a - b = 0` for `a` from `a = 1`, `b = 1 + 1/2000000` finds the
root `b` in two secant iterations and writes it, because the write-back
guard is exact `!=`, not the `EPSILON` comparison. -/
theorem eqnSub_run :
    eqnSub.solve_for 0 σeq = .ok (update σeq 0 (1 + 1 / 2000000), []) := by
  have h1 : eqnSub.vars.findIdx? (fun j => j == 0) = some 0 := rfl
  have hm : eqnSub.vars.map σeq = [1, 1 + 1 / 2000000] := by
    norm_num [eqnSub, σeq]
  have hrun : solve_for_arg eqnSub.f [1, 1 + 1 / 2000000] 0 =
      some (2000001 / 2000000, []) := by
    simp only [solve_for_arg, eqnSub]
    norm_num
    rw [secantLoop_step _ (ITERLIMIT + 1) 0 10 1 (11 / 10)] <;>
      norm_num [EPSILON, ITERLIMIT, abs_lt]
    exact secantLoop_exact _ 1000 1 10 (11 / 10) _ _ (Or.inl (by norm_num))
  simp only [EquationConstraint.solve_for, h1, hm, hrun]
  norm_num [σeq]

/-- C2 counterexample: LessThan with `smaller = 1 + 1/2000000`,
`bigger = 1`, `delta = 0` writes `bigger` although the new value is within
`EPSILON` of the old; Equation likewise writes its root `1 + 1/2000000`
over the current value `1`, a change below `EPSILON`. -/
theorem c2_counterexample :
    (okState (LessThanConstraint.solve_for ⟨0, 1, 0⟩ 0 σlt) σlt 1 ≠ σlt 1 ∧
      |okState (LessThanConstraint.solve_for ⟨0, 1, 0⟩ 0 σlt) σlt 1 - σlt 1| <
        EPSILON) ∧
    (okState (Except.map Prod.fst (eqnSub.solve_for 0 σeq)) σeq 0 ≠ σeq 0 ∧
      |okState (Except.map Prod.fst (eqnSub.solve_for 0 σeq)) σeq 0 - σeq 0| <
        EPSILON) := by
  constructor
  · constructor <;>
      norm_num [LessThanConstraint.solve_for, okState, update, σlt, EPSILON,
        abs_lt]
  · rw [eqnSub_run]
    constructor <;>
      norm_num [okState, Except.map, update, σeq, EPSILON, abs_lt]

/-! ### C3 -/

/-- When `var` is bound to no argument, `findIdx?` finds nothing. -/
theorem findIdx?_beq_none {l : List Nat} {v : Nat} (h : v ∉ l) :
    l.findIdx? (fun j => j == v) = none := by
  rw [List.findIdx?_eq_none_iff]
  intro x hx
  simp only [beq_eq_false_iff_ne, ne_eq]
  exact fun he => h (he ▸ hx)

/-- C3 (amended): only Equals, Center and Equation fail loudly on a
variable the constraint does not own (the asserts, and Python's
`UnboundLocalError`).  LessThan silently does nothing, Balance writes
whatever variable it is handed (see the counterexample), and Line ignores
the argument entirely. -/
theorem c3_foreign_variable_amended :
    (∀ (c : EqualsConstraint) (var : Nat) (σ : State),
      var ≠ c.a → var ≠ c.b → c.solve_for var σ = .error "AssertionError") ∧
    (∀ (c : CenterConstraint) (var : Nat) (σ : State),
      var ≠ c.a → var ≠ c.b → var ≠ c.center →
      c.solve_for var σ = .error "AssertionError") ∧
    (∀ (c : EquationConstraint) (var : Nat) (σ : State),
      var ∉ c.vars → c.solve_for var σ = .error "UnboundLocalError") ∧
    (∀ (c : LessThanConstraint) (var : Nat) (σ : State),
      var ≠ c.smaller → var ≠ c.bigger → c.solve_for var σ = .ok σ) ∧
    (∀ (c : LineConstraint) (v v' : Option Nat) (σ : State),
      c.solve_for v σ = c.solve_for v' σ) := by
  refine ⟨fun c var σ h1 h2 => ?_, fun c var σ h1 h2 h3 => ?_,
    fun c var σ h => ?_, fun c var σ h1 h2 => ?_, fun c v v' σ => rfl⟩
  · rw [EqualsConstraint.solve_for, if_neg (not_or.mpr ⟨h1, h2⟩)]
  · rw [CenterConstraint.solve_for,
      if_neg (not_or.mpr ⟨h1, not_or.mpr ⟨h2, h3⟩⟩)]
  · simp only [EquationConstraint.solve_for, findIdx?_beq_none h]
  · simp only [LessThanConstraint.solve_for, if_neg h1, if_neg h2, ite_self]

/-- C3 witness: solving an `EqualsConstraint` over indices `0`, `1` for the
foreign index `7` raises the assert. -/
theorem c3_witness :
    EqualsConstraint.solve_for ⟨0, 1⟩ 7 σ12 = .error "AssertionError" :=
  c3_foreign_variable_amended.1 ⟨0, 1⟩ 7 σ12 (by norm_num) (by norm_num)

/-- C3 counterexample: `LessThanConstraint` over indices `0`, `1` handed
the foreign index `5` silently does nothing (returns the store unchanged
instead of failing), and `BalanceConstraint` over indices `0`, `1`, `2`
handed the foreign index `9` happily writes the computed value `5` into
slot `9`. -/
theorem c3_counterexample :
    (LessThanConstraint.solve_for ⟨0, 1, 0⟩ 5 σ32 = .ok σ32 ∧
      (5 : Nat) ≠ 0 ∧ (5 : Nat) ≠ 1) ∧
    ((BalanceConstraint.solve_for ⟨0, 1, 2, 1 / 2⟩ 9 σbal).2 9 = 5 ∧
      σbal 9 = 0 ∧ (9 : Nat) ≠ 0 ∧ (9 : Nat) ≠ 1 ∧ (9 : Nat) ≠ 2) := by
  refine ⟨⟨?_, by norm_num, by norm_num⟩,
    ⟨?_, by norm_num [σbal], by norm_num, by norm_num, by norm_num⟩⟩
  · norm_num [LessThanConstraint.solve_for, σ32]
  · norm_num [BalanceConstraint.solve_for, update, equals, EPSILON, σbal,
      abs_lt]

/-! ### C6 -/

/-- The round-robin step demotes the head: remove-then-append is one
rotation. -/
theorem rot_step_eq_rotate (w : List Nat) : rot_step w = w.rotate 1 := by
  cases w with
  | nil => simp [rot_step, List.rotate_nil]
  | cons a t =>
    rw [List.rotate_cons_succ, List.rotate_zero]
    simp [rot_step, mark_dirty, List.erase_cons_head]

/-- Iterating the round-robin step rotates by the iteration count. -/
theorem rot_step_iterate (w : List Nat) (i : Nat) :
    rot_step^[i] w = w.rotate i := by
  induction i with
  | zero => simp [List.rotate_zero]
  | succ i ih =>
    rw [Function.iterate_succ_apply', ih, rot_step_eq_rotate,
      List.rotate_rotate]

/-- C6: when every variable has the minimum strength the weakest list is
the whole variable list in order; `mark_dirty` on the current weakest is a
rotation, so `k` such calls restore the list, the `i`-th call exposes the
`i`-th variable as `weakest()`, and `mark_dirty` on a variable that is not
the current weakest changes nothing. -/
theorem c6_mark_dirty_round_robin :
    (∀ (vars : List Nat) (strength : Nat → Nat) (s : Nat), vars ≠ [] →
      (∀ x ∈ vars, strength x = s) → create_weakest_list vars strength = vars) ∧
    (∀ w : List Nat, rot_step^[w.length] w = w) ∧
    (∀ (w : List Nat) (i : Nat), i < w.length →
      weakest (rot_step^[i] w) = w[i]?) ∧
    (∀ (w : List Nat) (v : Nat), w.head? ≠ some v → mark_dirty w v = w) := by
  refine ⟨fun vars strength s hne hall => ?_, fun w => ?_,
    fun w i hi => ?_, fun w v hv => ?_⟩
  · match vars, hne with
    | v :: vs, _ =>
      have hfold : ∀ (l : List Nat), (∀ x ∈ l, strength x = s) →
          (l.map strength).foldl min s = s := by
        intro l
        induction l with
        | nil => intro _; rfl
        | cons a t ih =>
          intro hall'
          rw [List.map_cons, List.foldl_cons, hall' a (List.mem_cons_self a t),
            min_self]
          exact ih (fun x hx => hall' x (List.mem_cons_of_mem a hx))
      have hv : strength v = s := hall v (List.mem_cons_self v vs)
      have hvs : ∀ x ∈ vs, strength x = s :=
        fun x hx => hall x (List.mem_cons_of_mem v hx)
      simp only [create_weakest_list, hv, hfold vs hvs]
      exact List.filter_eq_self.mpr
        (fun a ha => by simp [hall a ha])
  · rw [rot_step_iterate, List.rotate_length]
  · rw [weakest, rot_step_iterate, List.head?_rotate hi]
  · rw [mark_dirty, if_neg hv]

/-- C6 witness: three equally weak variables `[0, 1, 2]`: the weakest list
is all of them, one round-robin call exposes `1`, three calls restore the
order, and `mark_dirty` on non-weakest `2` is a no-op. -/
theorem c6_witness :
    create_weakest_list [0, 1, 2] (fun _ => 20) = [0, 1, 2] ∧
    rot_step^[3] [0, 1, 2] = [0, 1, 2] ∧
    weakest (rot_step^[1] [0, 1, 2]) = some 1 ∧
    mark_dirty [0, 1, 2] 2 = [0, 1, 2] :=
  ⟨c6_mark_dirty_round_robin.1 [0, 1, 2] (fun _ => 20) 20 (by simp)
      (fun x _ => rfl),
    c6_mark_dirty_round_robin.2.1 [0, 1, 2],
    c6_mark_dirty_round_robin.2.2.1 [0, 1, 2] 1 (by simp),
    c6_mark_dirty_round_robin.2.2.2 [0, 1, 2] 2 (by simp)⟩

/-! ### C7 -/

/-- Store for the doctest scenario: line `(0,0)-(30,20)` at indices
`0..3`, point `(15,4)` at indices `4`, `5`. -/
def lineσ0 : State := fun i =>
  if i = 0 then 0 else if i = 1 then 0 else if i = 2 then 30 else
  if i = 3 then 20 else if i = 4 then 15 else if i = 5 then 4 else 0

/-- The doctest's `LineConstraint` before `update_ratio`. -/
def lc0 : LineConstraint := ⟨0, 1, 2, 3, 4, 5, 0, 0⟩

/-- The doctest's `LineConstraint` with captured ratios. -/
def lc1 : LineConstraint := lc0.update_ratio lineσ0

/-- The store after moving the far endpoint to `(40, 30)`. -/
def lineσ1 : State := update (update lineσ0 2 40) 3 30

/-- C7: `update_ratio` on line `(0,0)-(30,20)` with point `(15,4)` captures
ratios `(1/2, 1/5)`; after the far endpoint moves to `(40,30)`, `solve_for`
puts the point at `(20, 6)`, leaves the ratios untouched, and ignores which
variable was passed. -/
theorem c7_line_ratio_scenario :
    (lc1.ratio_x = 1 / 2 ∧ lc1.ratio_y = 1 / 5) ∧
    ((lc1.solve_for none lineσ1).2 4 = 20 ∧
      (lc1.solve_for none lineσ1).2 5 = 6) ∧
    ((lc1.solve_for none lineσ1).1.ratio_x = lc1.ratio_x ∧
      (lc1.solve_for none lineσ1).1.ratio_y = lc1.ratio_y) ∧
    (∀ (v v' : Option Nat) (σ : State), lc1.solve_for v σ = lc1.solve_for v' σ) := by
  refine ⟨⟨?_, ?_⟩, ⟨?_, ?_⟩, ⟨rfl, rfl⟩, fun v v' σ => rfl⟩ <;>
    norm_num [LineConstraint.solve_for, LineConstraint.solvePoint, lc1, lc0,
      LineConstraint.update_ratio, lineσ1, lineσ0, update, equals, EPSILON,
      abs_lt]

/-! ### C8 -/

/-- C8: after `solve_for(v)` (with `v` distinct from the band ends) the
value of `v` satisfies `v = b1 + (b2 - b1) * balance` within `EPSILON`, and
`solve_for` does not modify the `balance` attribute. -/
theorem c8_balance_maintains_v :
    ∀ (c : BalanceConstraint) (σ : State), c.v ≠ c.b1 → c.v ≠ c.b2 →
      |(c.solve_for c.v σ).2 c.v -
        ((c.solve_for c.v σ).2 c.b1 +
          ((c.solve_for c.v σ).2 c.b2 - (c.solve_for c.v σ).2 c.b1) *
            c.balance)| < EPSILON ∧
      (c.solve_for c.v σ).1.balance = c.balance := by
  intro c σ h1 h2
  refine ⟨?_, rfl⟩
  simp only [BalanceConstraint.solve_for]
  by_cases hg : equals (σ c.v) (σ c.b1 + (σ c.b2 - σ c.b1) * c.balance) = true
  · rw [if_neg (not_not_intro hg)]
    exact (equals_eq_true_iff _ _).mp hg
  · rw [if_pos hg, update_same, update_other σ c.v _ (Ne.symm h1),
      update_other σ c.v _ (Ne.symm h2), sub_self, abs_zero]
    exact EPSILON_pos

/-- C8 witness: band `(0, 10)` with balance `1/2` and `v = 5` at index `2`:
already in balance, nothing moves and the relation holds. -/
theorem c8_witness :
    |(BalanceConstraint.solve_for ⟨0, 1, 2, 1 / 2⟩ 2 σbal).2 2 -
      ((BalanceConstraint.solve_for ⟨0, 1, 2, 1 / 2⟩ 2 σbal).2 0 +
        ((BalanceConstraint.solve_for ⟨0, 1, 2, 1 / 2⟩ 2 σbal).2 1 -
          (BalanceConstraint.solve_for ⟨0, 1, 2, 1 / 2⟩ 2 σbal).2 0) *
          (1 / 2))| < EPSILON ∧
    (BalanceConstraint.solve_for ⟨0, 1, 2, 1 / 2⟩ 2 σbal).1.balance = 1 / 2 :=
  c8_balance_maintains_v ⟨0, 1, 2, 1 / 2⟩ σbal (by norm_num) (by norm_num)

/-! ### C9 -/

/-- C9: the degenerate-geometry guards: a zero-width band makes
`update_balance` set `balance = 0`, and a zero-length axis makes
`update_ratio` set that axis's ratio to `0`; all three are total functions,
so no exception escapes. -/
theorem c9_degenerate_geometry_guards :
    (∀ (c : BalanceConstraint) (σ : State), σ c.b2 = σ c.b1 →
      (c.update_balance σ).balance = 0) ∧
    (∀ (c : LineConstraint) (σ : State), σ c.ex = σ c.sx →
      (c.update_ratio σ).ratio_x = 0) ∧
    (∀ (c : LineConstraint) (σ : State), σ c.ey = σ c.sy →
      (c.update_ratio σ).ratio_y = 0) := by
  refine ⟨fun c σ h => ?_, fun c σ h => ?_, fun c σ h => ?_⟩ <;>
    simp [BalanceConstraint.update_balance, LineConstraint.update_ratio, h]

/-- C9 witness: a band and a line collapsed to a point (every variable has
value `5`): balance and both ratios come out `0`. -/
theorem c9_witness :
    (BalanceConstraint.update_balance ⟨0, 1, 2, 3⟩ (fun _ => 5)).balance = 0 ∧
    (LineConstraint.update_ratio ⟨0, 1, 2, 3, 4, 5, 9, 9⟩ (fun _ => 5)).ratio_x
      = 0 ∧
    (LineConstraint.update_ratio ⟨0, 1, 2, 3, 4, 5, 9, 9⟩ (fun _ => 5)).ratio_y
      = 0 :=
  ⟨c9_degenerate_geometry_guards.1 ⟨0, 1, 2, 3⟩ (fun _ => 5) rfl,
    c9_degenerate_geometry_guards.2.1 ⟨0, 1, 2, 3, 4, 5, 9, 9⟩ (fun _ => 5) rfl,
    c9_degenerate_geometry_guards.2.2 ⟨0, 1, 2, 3, 4, 5, 9, 9⟩ (fun _ => 5) rfl⟩

/-! ### C10 -/

/-- C10: `BalanceConstraint.solve_for(x)` writes the computed value
`b1 + (b2 - b1) * balance` into exactly the slot of the variable `x` it was
passed (when out of tolerance), and no other slot changes. -/
theorem c10_balance_writes_passed_variable :
    ∀ (c : BalanceConstraint) (var : Nat) (σ : State),
      (∀ j, j ≠ var → (c.solve_for var σ).2 j = σ j) ∧
      (¬ |σ var - (σ c.b1 + (σ c.b2 - σ c.b1) * c.balance)| < EPSILON →
        (c.solve_for var σ).2 var =
          σ c.b1 + (σ c.b2 - σ c.b1) * c.balance) := by
  intro c var σ
  simp only [BalanceConstraint.solve_for]
  constructor
  · intro j hj
    by_cases hg : equals (σ var) (σ c.b1 + (σ c.b2 - σ c.b1) * c.balance) = true
    · rw [if_neg (not_not_intro hg)]
    · rw [if_pos hg]
      exact update_other σ var _ hj
  · intro hne
    rw [if_pos (fun h => hne ((equals_eq_true_iff _ _).mp h)), update_same]

/-- C10 witness: passing the band endpoint at index `1` (value `10`)
rewrites that endpoint to the computed value `5` and leaves `v` (index `2`)
alone. -/
theorem c10_witness :
    (BalanceConstraint.solve_for ⟨0, 1, 2, 1 / 2⟩ 1 σbal).2 2 = σbal 2 ∧
    (BalanceConstraint.solve_for ⟨0, 1, 2, 1 / 2⟩ 1 σbal).2 1 =
      σbal 0 + (σbal 1 - σbal 0) * (1 / 2) :=
  ⟨(c10_balance_writes_passed_variable ⟨0, 1, 2, 1 / 2⟩ 1 σbal).1 2
      (by norm_num),
    (c10_balance_writes_passed_variable ⟨0, 1, 2, 1 / 2⟩ 1 σbal).2
      (by norm_num [σbal, EPSILON, abs_lt])⟩

end Gaphas
